import Mathlib

/-!
Shallow embedding of `src/app.py` (YouTube Extractor API service).

The service has two POST handlers, `extract_audio` (`/extract`) and
`get_video_info` (`/info`).  Each builds a `yt-dlp` argument list from the
request, runs it as a child process with a timeout, and maps the process
outcome (exit code, stdout, stderr — or a raised exception) to either a JSON
body or an HTTP error.

Python semantics that matter for the embedding:
* both handlers wrap their whole body in
  `try: ... except subprocess.TimeoutExpired: ... except Exception as e: ...`
  (the `/info` handler only has the `except Exception` clause); FastAPI's
  `HTTPException` is a subclass of `Exception`, so an `HTTPException` raised
  inside the `try` body is caught by the handler's own `except Exception`
  clause and re-raised as a 500.  An exception raised inside an `except`
  clause is NOT caught by sibling clauses of the same `try`, so the 408 of
  the timeout branch does propagate to the framework.
* `str(HTTPException(code, detail))` is `f"{code}: {detail}"` (Starlette).
* `result.stdout.strip().split('\n')`, `line.strip()` and `int(s)` follow
  CPython: `strip` removes the Unicode whitespace set at both ends,
  `split('\n')` splits at every newline (yielding `[""]` on the empty
  string), and `int` strips whitespace, accepts an optional sign and a
  digit string with single underscores between digits.  The `int` model
  below is restricted to ASCII decimal digits.
-/

/-- Characters CPython's `str.strip()` / `int()` treat as whitespace
(`Py_UNICODE_ISSPACE`): tab through CR, `\x1c`-`\x1f`, space, NEL, NBSP and
the Unicode Zs/Zl/Zp space characters. -/
def isPyWhitespace (c : Char) : Bool :=
  let n := c.toNat
  (decide (9 ≤ n) && decide (n ≤ 13)) || (decide (28 ≤ n) && decide (n ≤ 31)) ||
  n == 32 || n == 0x85 || n == 0xa0 || n == 0x1680 ||
  (decide (0x2000 ≤ n) && decide (n ≤ 0x200a)) ||
  n == 0x2028 || n == 0x2029 || n == 0x202f || n == 0x205f || n == 0x3000

/-- The list `cs` with leading and trailing Python-whitespace removed. -/
def pyStripList (cs : List Char) : List Char :=
  ((cs.dropWhile isPyWhitespace).reverse.dropWhile isPyWhitespace).reverse

/-- Python `s.strip()`. -/
def pyStrip (s : String) : String :=
  String.mk (pyStripList s.toList)

/-- Split a character list at every newline; `splitNL []` is `[[]]`,
matching Python `''.split('\n') == ['']`. -/
def splitNL : List Char → List (List Char)
  | [] => [[]]
  | c :: rest =>
    if c = '\n' then [] :: splitNL rest
    else
      match splitNL rest with
      | [] => [[c]]
      | l :: ls => (c :: l) :: ls

/-- Python `s.strip().split('\n')` — the line list both handlers parse. -/
def pyLines (s : String) : List String :=
  (splitNL (pyStripList s.toList)).map String.mk

/-- Digit-run parser for the `int` model: a nonempty ASCII-digit string in
which single underscores may separate digits (CPython's numeric grammar). -/
def pyDigitRun : List Char → Nat → Option Nat
  | [], acc => some acc
  | '_' :: c :: rest, acc =>
    if c.isDigit then pyDigitRun rest (acc * 10 + (c.toNat - 48)) else none
  | c :: rest, acc =>
    if c.isDigit then pyDigitRun rest (acc * 10 + (c.toNat - 48)) else none

/-- Parse an unsigned digit string (with CPython's underscore rule). -/
def pyUnsigned : List Char → Option Nat
  | [] => none
  | c :: rest =>
    if c.isDigit then pyDigitRun rest (c.toNat - 48) else none

/-- Python `int(s)` on strings, returning `none` where CPython raises
`ValueError` (restricted to ASCII decimal digits). -/
def pyInt (s : String) : Option Int :=
  match pyStripList s.toList with
  | '+' :: rest => (pyUnsigned rest).map Int.ofNat
  | '-' :: rest => (pyUnsigned rest).map (fun n => -(n : Int))
  | rest => (pyUnsigned rest).map Int.ofNat

/-- `ExtractRequest` (pydantic model): `url`, `format` (default
`"bestaudio"`), `quality` (default `"best"`). -/
structure ExtractRequest where
  url : String
  format : String := "bestaudio"
  quality : String := "best"
deriving DecidableEq, Repr

/-- `ExtractResponse` (pydantic model returned by `/extract`). -/
structure ExtractResponse where
  success : Bool
  url : Option String := none
  title : Option String := none
  duration : Option Int := none
  error : Option String := none
deriving DecidableEq, Repr

/-- The dict returned by `/info` on success. -/
structure InfoResponse where
  success : Bool
  title : String
  duration : String
  uploader : String
  view_count : String
deriving DecidableEq, Repr

/-- One `subprocess.run` invocation: the argument list and the `timeout=`
bound in seconds. -/
structure SubprocessCall where
  cmd : List String
  timeoutSecs : Nat
deriving DecidableEq, Repr

/-- What `subprocess.run` did: completed with an exit code and captured
streams, raised `subprocess.TimeoutExpired` (carrying its `str(e)` text),
or raised some other exception (e.g. `FileNotFoundError`), again carrying
its `str(e)` text. -/
inductive ProcOutcome where
  | completed (returncode : Int) (stdout stderr : String)
  | timedOut (msg : String)
  | raised (msg : String)
deriving DecidableEq, Repr

/-- What a handler invocation yields once FastAPI is done with it: a JSON
body, or an HTTP error response with a status code and a detail string. -/
inductive HandlerResult (α : Type) where
  | ok (body : α)
  | httpError (status : Nat) (detail : String)
deriving DecidableEq, Repr

/-- The outcome of a handler's `try` body: a returned value, or a raised
`HTTPException` with status code and detail. -/
inductive PyFlow (α : Type) where
  | ret (a : α)
  | httpExn (status : Nat) (detail : String)
deriving DecidableEq, Repr

/-- Starlette's `str(HTTPException(status, detail))`. -/
def pyStrHTTPException (status : Nat) (detail : String) : String :=
  toString status ++ ": " ++ detail

/-- The handlers' trailing `except Exception as e: raise HTTPException(500,
f"Internal server error: {str(e)}")` clause: an `HTTPException` escaping
the `try` body (a subclass of `Exception`) is caught and rewrapped as a
500; a plain return passes through. -/
def rewrapExn {α : Type} : PyFlow α → HandlerResult α
  | .ret a => .ok a
  | .httpExn status detail =>
    .httpError 500 ("Internal server error: " ++ pyStrHTTPException status detail)

/-- The fixed `--user-agent` value both handlers pass. -/
def userAgent : String :=
  "Mozilla/5.0 (Windows NT 10.0; Win64; x64) AppleWebKit/537.36 (KHTML, like Gecko) Chrome/120.0.0.0 Safari/537.36"

/-- The `cmd` list and `timeout=60` that `/extract` hands to
`subprocess.run`. -/
def extractInvocation (request : ExtractRequest) : SubprocessCall where
  cmd :=
    ["yt-dlp",
     "--no-playlist",
     "--extract-audio",
     "--audio-format", "mp3",
     "--audio-quality", "0",
     "--format", request.format,
     "--no-warnings",
     "--quiet",
     "--print", "url",
     "--print", "title",
     "--print", "duration",
     "--user-agent", userAgent,
     request.url]
  timeoutSecs := 60

/-- The `cmd` list and `timeout=30` that `/info` hands to
`subprocess.run`. -/
def infoInvocation (request : ExtractRequest) : SubprocessCall where
  cmd :=
    ["yt-dlp",
     "--no-playlist",
     "--no-warnings",
     "--quiet",
     "--print", "title",
     "--print", "duration",
     "--print", "uploader",
     "--print", "view_count",
     "--user-agent", userAgent,
     request.url]
  timeoutSecs := 30

/-- The `try` body of `extract_audio` after `subprocess.run` completed:
non-zero exit raises a 400 with stderr, fewer than three stdout lines
raises a 400 "Invalid output", otherwise the response is built from the
first three stripped lines (the duration parse failure is swallowed). -/
def extractTryBody (returncode : Int) (stdout stderr : String) :
    PyFlow ExtractResponse :=
  if returncode ≠ 0 then
    .httpExn 400 ("YouTube extraction failed: " ++ stderr)
  else
    let output_lines := pyLines stdout
    if output_lines.length < 3 then
      .httpExn 400 "Invalid output from yt-dlp"
    else
      .ret { success := true
             url := some (pyStrip (output_lines.getD 0 ""))
             title := some (pyStrip (output_lines.getD 1 ""))
             duration := pyInt (pyStrip (output_lines.getD 2 ""))
             error := none }

/-- The `/extract` handler, as a function of the request and of what
`subprocess.run` did.  `TimeoutExpired` is caught by its dedicated clause,
which raises the 408 from inside an `except` clause (so it escapes the
sibling `except Exception`); any other exception — including an
`HTTPException` raised by the body — lands in `except Exception`. -/
def extract_audio (request : ExtractRequest) (outcome : ProcOutcome) :
    HandlerResult ExtractResponse :=
  match outcome with
  | .timedOut _ =>
    .httpError 408 "Request timed out. YouTube may be blocking the request."
  | .raised msg => .httpError 500 ("Internal server error: " ++ msg)
  | .completed returncode stdout stderr =>
    rewrapExn (extractTryBody returncode stdout stderr)

/-- The `try` body of `get_video_info` after `subprocess.run` completed. -/
def infoTryBody (returncode : Int) (stdout stderr : String) :
    PyFlow InfoResponse :=
  if returncode ≠ 0 then
    .httpExn 400 ("Failed to get video info: " ++ stderr)
  else
    let output_lines := pyLines stdout
    if output_lines.length < 4 then
      .httpExn 400 "Invalid output from yt-dlp"
    else
      .ret { success := true
             title := pyStrip (output_lines.getD 0 "")
             duration := pyStrip (output_lines.getD 1 "")
             uploader := pyStrip (output_lines.getD 2 "")
             view_count := pyStrip (output_lines.getD 3 "") }

/-- The `/info` handler.  It has no `TimeoutExpired` clause: a timeout is
just another exception caught by `except Exception`, as is any other
failure of `subprocess.run` and any `HTTPException` the body raises. -/
def get_video_info (request : ExtractRequest) (outcome : ProcOutcome) :
    HandlerResult InfoResponse :=
  match outcome with
  | .timedOut msg => .httpError 500 ("Internal server error: " ++ msg)
  | .raised msg => .httpError 500 ("Internal server error: " ++ msg)
  | .completed returncode stdout stderr =>
    rewrapExn (infoTryBody returncode stdout stderr)

/-- The whole request pipeline for `/extract`: build the command, run it
through the environment (modelled as a function from the invocation to a
process outcome), map the outcome. -/
def extractPipeline (request : ExtractRequest)
    (env : SubprocessCall → ProcOutcome) : HandlerResult ExtractResponse :=
  extract_audio request (env (extractInvocation request))

/-- The whole request pipeline for `/info`. -/
def infoPipeline (request : ExtractRequest)
    (env : SubprocessCall → ProcOutcome) : HandlerResult InfoResponse :=
  get_video_info request (env (infoInvocation request))

/-- Does `hay` contain `needle` as a contiguous substring? -/
def containsSub (needle : List Char) : List Char → Bool
  | [] => needle.isEmpty
  | c :: rest => needle.isPrefixOf (c :: rest) || containsSub needle rest

/-- The property C4 asserts of a single handler result, stated from the
claim's words for refutation: a client error (HTTP 400) whose message
cites invalid output. -/
def citesInvalidOutputAs400 {α : Type} : HandlerResult α → Bool
  | .ok _ => false
  | .httpError status detail =>
    status == 400 && containsSub "Invalid output".toList detail.toList

/-- A concrete request used to instantiate universally quantified theorems. -/
def sampleRequest : ExtractRequest :=
  { url := "https://youtu.be/dQw4w9WgXcQ" }

/-- On a zero exit status with at least three stdout lines, `/extract`
returns the record built from the first three stripped lines, duration
being whatever `int()` made of the third. -/
theorem extract_audio_success_shape (request : ExtractRequest)
    (stdout stderr : String) (h : 3 ≤ (pyLines stdout).length) :
    extract_audio request (.completed 0 stdout stderr) =
      .ok { success := true
            url := some (pyStrip ((pyLines stdout).getD 0 ""))
            title := some (pyStrip ((pyLines stdout).getD 1 ""))
            duration := pyInt (pyStrip ((pyLines stdout).getD 2 ""))
            error := none } := by
  have h' : ¬ (pyLines stdout).length < 3 := not_lt.mpr h
  simp [extract_audio, extractTryBody, rewrapExn, h']

/-- On a zero exit status with at least four stdout lines, `/info` returns
the record built from the first four stripped lines. -/
theorem get_video_info_success_shape (request : ExtractRequest)
    (stdout stderr : String) (h : 4 ≤ (pyLines stdout).length) :
    get_video_info request (.completed 0 stdout stderr) =
      .ok { success := true
            title := pyStrip ((pyLines stdout).getD 0 "")
            duration := pyStrip ((pyLines stdout).getD 1 "")
            uploader := pyStrip ((pyLines stdout).getD 2 "")
            view_count := pyStrip ((pyLines stdout).getD 3 "") } := by
  have h' : ¬ (pyLines stdout).length < 4 := not_lt.mpr h
  simp [get_video_info, infoTryBody, rewrapExn, h']

example : pyLines "http://media/1\nSong Title\n213\n" =
    ["http://media/1", "Song Title", "213"] := by decide
example : pyInt "213" = some 213 := by decide
example : pyInt "N/A" = none := by decide
example : pyStrip "  a b " = "a b" := by decide
example : extract_audio sampleRequest
    (.completed 0 "http://media/1\nSong Title\n213\n" "") =
    .ok { success := true, url := some "http://media/1",
          title := some "Song Title", duration := some 213,
          error := none } := by decide
example : extract_audio sampleRequest (.completed 1 "" "boom") =
    .httpError 500 "Internal server error: 400: YouTube extraction failed: boom" := by
  decide

/-- C1: with a non-zero exit status both handlers build an
`HTTPException(400, ...stderr...)` — but it is raised inside the `try`
body, so the handler's own `except Exception` clause catches it and
re-raises it as a 500.  The observable response is HTTP 500, not the
claimed 400, though its message still contains the stderr text. -/
theorem nonzero_exit_rewrapped_as_500 :
    extract_audio sampleRequest (.completed 1 "" "ERROR: Unsupported URL") =
      .httpError 500
        "Internal server error: 400: YouTube extraction failed: ERROR: Unsupported URL" ∧
    get_video_info sampleRequest (.completed 1 "" "ERROR: Unsupported URL") =
      .httpError 500
        "Internal server error: 400: Failed to get video info: ERROR: Unsupported URL" ∧
    containsSub "ERROR: Unsupported URL".toList
      "Internal server error: 400: YouTube extraction failed: ERROR: Unsupported URL".toList
      = true := by
  exact ⟨by decide, by decide, by decide⟩

/-- C2: on a zero exit status with at least three stdout lines whose third
line parses as an integer `n`, `/extract` answers success with the first
line as `url`, the second as `title` and `n` as `duration`. -/
theorem extract_success_result (request : ExtractRequest)
    (stdout stderr : String) (n : Int) (h3 : 3 ≤ (pyLines stdout).length)
    (hn : pyInt (pyStrip ((pyLines stdout).getD 2 "")) = some n) :
    extract_audio request (.completed 0 stdout stderr) =
      .ok { success := true
            url := some (pyStrip ((pyLines stdout).getD 0 ""))
            title := some (pyStrip ((pyLines stdout).getD 1 ""))
            duration := some n
            error := none } := by
  rw [extract_audio_success_shape request stdout stderr h3, hn]

/-- C2 at the mocked process output of the spec. -/
theorem extract_success_result_witness :
    extract_audio sampleRequest
      (.completed 0 "http://media/1\nSong Title\n213\n" "") =
      .ok { success := true, url := some "http://media/1",
            title := some "Song Title", duration := some 213,
            error := none } := by
  have h := extract_success_result sampleRequest
    "http://media/1\nSong Title\n213\n" "" 213 (by decide) (by decide)
  exact h.trans (by decide)

/-- C3: on a zero exit status with at least three stdout lines whose third
line does not parse as an integer, `/extract` still answers success with
`url` and `title` populated and `duration` absent. -/
theorem extract_nonnumeric_duration_absent (request : ExtractRequest)
    (stdout stderr : String) (h3 : 3 ≤ (pyLines stdout).length)
    (hn : pyInt (pyStrip ((pyLines stdout).getD 2 "")) = none) :
    extract_audio request (.completed 0 stdout stderr) =
      .ok { success := true
            url := some (pyStrip ((pyLines stdout).getD 0 ""))
            title := some (pyStrip ((pyLines stdout).getD 1 ""))
            duration := none
            error := none } := by
  rw [extract_audio_success_shape request stdout stderr h3, hn]

/-- C3 at the spec's `"N/A"` duration example. -/
theorem extract_nonnumeric_duration_absent_witness :
    extract_audio sampleRequest
      (.completed 0 "http://media/1\nSong Title\nN/A" "") =
      .ok { success := true, url := some "http://media/1",
            title := some "Song Title", duration := none,
            error := none } := by
  have h := extract_nonnumeric_duration_absent sampleRequest
    "http://media/1\nSong Title\nN/A" "" (by decide) (by decide)
  exact h.trans (by decide)

/-- C4 (counterexample): with a non-zero exit status and a single stdout
line, `/extract` answers with the stderr-based error — rewrapped as a
500 — not with a client error citing invalid output: the claim's
"regardless of the process's exit status" fails, the non-zero-exit branch
takes precedence. -/
theorem invalid_output_claim_false_at_nonzero_exit :
    extract_audio sampleRequest (.completed 1 "x" "boom") =
      .httpError 500 "Internal server error: 400: YouTube extraction failed: boom" ∧
    citesInvalidOutputAs400
      (extract_audio sampleRequest (.completed 1 "x" "boom")) = false := by
  exact ⟨by decide, by decide⟩

/-- C4 (amended): on a zero exit status, if stdout has fewer than three
(`/extract`) or four (`/info`) lines, the handler raises the 400 "Invalid
output from yt-dlp" error, which its own `except Exception` clause
surfaces as an HTTP 500 whose message cites the invalid output. -/
theorem short_output_zero_exit_invalid_output_500 (request : ExtractRequest)
    (stdout stderr : String) :
    ((pyLines stdout).length < 3 →
      extract_audio request (.completed 0 stdout stderr) =
        .httpError 500 "Internal server error: 400: Invalid output from yt-dlp") ∧
    ((pyLines stdout).length < 4 →
      get_video_info request (.completed 0 stdout stderr) =
        .httpError 500 "Internal server error: 400: Invalid output from yt-dlp") := by
  constructor
  · intro h
    have hb : extractTryBody 0 stdout stderr =
        .httpExn 400 "Invalid output from yt-dlp" := by
      simp [extractTryBody, h]
    show rewrapExn (extractTryBody 0 stdout stderr) = _
    rw [hb]
    rfl
  · intro h
    have hb : infoTryBody 0 stdout stderr =
        .httpExn 400 "Invalid output from yt-dlp" := by
      simp [infoTryBody, h]
    show rewrapExn (infoTryBody 0 stdout stderr) = _
    rw [hb]
    rfl

/-- C4 (amended) at a one-line stdout. -/
theorem short_output_zero_exit_invalid_output_500_witness :
    extract_audio sampleRequest (.completed 0 "x" "") =
      .httpError 500 "Internal server error: 400: Invalid output from yt-dlp" ∧
    get_video_info sampleRequest (.completed 0 "x" "") =
      .httpError 500 "Internal server error: 400: Invalid output from yt-dlp" := by
  have h := short_output_zero_exit_invalid_output_500 sampleRequest "x" ""
  exact ⟨h.1 (by decide), h.2 (by decide)⟩

/-- C5: `/extract` bounds the process by 60 seconds, and on
`TimeoutExpired` answers the dedicated 408 with the blocking hint — the
408 is raised from inside an `except` clause, so the sibling
`except Exception` does not intercept it. -/
theorem extract_timeout_408 (request : ExtractRequest) (msg : String) :
    (extractInvocation request).timeoutSecs = 60 ∧
    extract_audio request (.timedOut msg) =
      .httpError 408 "Request timed out. YouTube may be blocking the request." :=
  ⟨rfl, rfl⟩

/-- C6: `/info` bounds the process by 30 seconds and has no
timeout-specific branch: a timeout lands in `except Exception` and yields
the same generic 500 as any other raised exception. -/
theorem info_timeout_generic_500 (request : ExtractRequest) (msg : String) :
    (infoInvocation request).timeoutSecs = 30 ∧
    get_video_info request (.timedOut msg) =
      .httpError 500 ("Internal server error: " ++ msg) ∧
    get_video_info request (.timedOut msg) =
      get_video_info request (.raised msg) :=
  ⟨rfl, rfl, rfl⟩

/-- C7: on a zero exit status with at least four stdout lines, `/info`
maps the lines positionally to `title`, `duration`, `uploader` and
`view_count` as strings — no numeric parsing — with `success := true`. -/
theorem info_success_positional_fields (request : ExtractRequest)
    (stdout stderr : String) (h4 : 4 ≤ (pyLines stdout).length) :
    get_video_info request (.completed 0 stdout stderr) =
      .ok { success := true
            title := pyStrip ((pyLines stdout).getD 0 "")
            duration := pyStrip ((pyLines stdout).getD 1 "")
            uploader := pyStrip ((pyLines stdout).getD 2 "")
            view_count := pyStrip ((pyLines stdout).getD 3 "") } :=
  get_video_info_success_shape request stdout stderr h4

/-- C7 at a concrete four-line output: `duration` and `view_count` stay
the strings `"213"` and `"1000"`. -/
theorem info_success_positional_fields_witness :
    get_video_info sampleRequest
      (.completed 0 "Video Title\n213\nUploader Name\n1000" "") =
      .ok { success := true, title := "Video Title", duration := "213",
            uploader := "Uploader Name", view_count := "1000" } := by
  have h := info_success_positional_fields sampleRequest
    "Video Title\n213\nUploader Name\n1000" "" (by decide)
  exact h.trans (by decide)

/-- C8: the exact argument lists handed to `subprocess.run`: `/extract`
disables playlists, extracts audio as mp3 at best quality, passes the
request's format, suppresses warnings/output, prints url, title, duration
in that order, sets the fixed user agent and ends with the request URL;
`/info` shares the suppression and user-agent flags, prints title,
duration, uploader, view_count, and carries no extraction flag. -/
theorem command_construction (request : ExtractRequest) :
    (extractInvocation request).cmd =
      ["yt-dlp", "--no-playlist", "--extract-audio", "--audio-format", "mp3",
       "--audio-quality", "0", "--format", request.format, "--no-warnings",
       "--quiet", "--print", "url", "--print", "title", "--print", "duration",
       "--user-agent", userAgent, request.url] ∧
    (infoInvocation request).cmd =
      ["yt-dlp", "--no-playlist", "--no-warnings", "--quiet",
       "--print", "title", "--print", "duration", "--print", "uploader",
       "--print", "view_count", "--user-agent", userAgent, request.url] ∧
    (infoInvocation request).cmd.dropLast.contains "--extract-audio" = false ∧
    (infoInvocation request).cmd.dropLast.contains "--audio-format" = false ∧
    (infoInvocation request).cmd.dropLast.contains "--audio-quality" = false ∧
    (infoInvocation request).cmd.dropLast.contains "--format" = false := by
  refine ⟨rfl, rfl, ?_, ?_, ?_, ?_⟩ <;> rfl

/-- The `/extract` handler never reads the request record: its response is
a function of the process outcome alone. -/
theorem extract_audio_req_irrel (r₁ r₂ : ExtractRequest)
    (outcome : ProcOutcome) :
    extract_audio r₁ outcome = extract_audio r₂ outcome := by
  cases outcome <;> rfl

/-- The `/info` handler never reads the request record either. -/
theorem get_video_info_req_irrel (r₁ r₂ : ExtractRequest)
    (outcome : ProcOutcome) :
    get_video_info r₁ outcome = get_video_info r₂ outcome := by
  cases outcome <;> rfl

/-- C9: two requests that agree on `url` and `format` — differing at most
in `quality` — produce identical argument lists for both endpoints, and
for equal process outcomes identical responses: `quality` influences
nothing. -/
theorem quality_field_never_influences (r₁ r₂ : ExtractRequest)
    (hu : r₁.url = r₂.url) (hf : r₁.format = r₂.format) :
    extractInvocation r₁ = extractInvocation r₂ ∧
    infoInvocation r₁ = infoInvocation r₂ ∧
    (∀ outcome, extract_audio r₁ outcome = extract_audio r₂ outcome) ∧
    (∀ outcome, get_video_info r₁ outcome = get_video_info r₂ outcome) := by
  refine ⟨?_, ?_, fun outcome => extract_audio_req_irrel r₁ r₂ outcome,
    fun outcome => get_video_info_req_irrel r₁ r₂ outcome⟩
  · simp [extractInvocation, hu, hf]
  · simp [infoInvocation, hu]

/-- C9 at two requests differing only in `quality`. -/
theorem quality_field_never_influences_witness :
    extractInvocation { url := "https://youtu.be/a", quality := "best" } =
      extractInvocation { url := "https://youtu.be/a", quality := "worst" } ∧
    infoInvocation { url := "https://youtu.be/a", quality := "best" } =
      infoInvocation { url := "https://youtu.be/a", quality := "worst" } ∧
    extract_audio { url := "https://youtu.be/a", quality := "best" }
        (.timedOut "t") =
      extract_audio { url := "https://youtu.be/a", quality := "worst" }
        (.timedOut "t") ∧
    get_video_info { url := "https://youtu.be/a", quality := "best" }
        (.timedOut "t") =
      get_video_info { url := "https://youtu.be/a", quality := "worst" }
        (.timedOut "t") := by
  have h := quality_field_never_influences
    { url := "https://youtu.be/a", quality := "best" }
    { url := "https://youtu.be/a", quality := "worst" } rfl rfl
  exact ⟨h.1, h.2.1, h.2.2.1 (.timedOut "t"), h.2.2.2 (.timedOut "t")⟩

/-- If two lists agree on their first `n` elements, `getD` below `n`
agrees. -/
theorem getD_eq_of_take_eq {α : Type} {l₁ l₂ : List α} {n i : Nat} (d : α)
    (h : l₁.take n = l₂.take n) (hi : i < n) :
    l₁.getD i d = l₂.getD i d := by
  rw [List.getD_eq_getD_get?, List.getD_eq_getD_get?, List.get?_eq_getElem?,
    List.get?_eq_getElem?, ← List.getElem?_take_of_lt (l := l₁) hi,
    ← List.getElem?_take_of_lt (l := l₂) hi, h]

/-- C10: each string field of a successful response is the corresponding
line of the stripped stdout, itself stripped; and the response is
determined by the first three (`/extract`) or four (`/info`) such lines —
further lines (and the stderr text) are irrelevant. -/
theorem stripped_lines_determine_response (request : ExtractRequest)
    (s₁ s₂ e₁ e₂ : String) :
    (3 ≤ (pyLines s₁).length →
      extract_audio request (.completed 0 s₁ e₁) =
        .ok { success := true
              url := some (pyStrip ((pyLines s₁).getD 0 ""))
              title := some (pyStrip ((pyLines s₁).getD 1 ""))
              duration := pyInt (pyStrip ((pyLines s₁).getD 2 ""))
              error := none }) ∧
    (4 ≤ (pyLines s₁).length →
      get_video_info request (.completed 0 s₁ e₁) =
        .ok { success := true
              title := pyStrip ((pyLines s₁).getD 0 "")
              duration := pyStrip ((pyLines s₁).getD 1 "")
              uploader := pyStrip ((pyLines s₁).getD 2 "")
              view_count := pyStrip ((pyLines s₁).getD 3 "") }) ∧
    ((pyLines s₁).take 3 = (pyLines s₂).take 3 → 3 ≤ (pyLines s₁).length →
      3 ≤ (pyLines s₂).length →
      extract_audio request (.completed 0 s₁ e₁) =
        extract_audio request (.completed 0 s₂ e₂)) ∧
    ((pyLines s₁).take 4 = (pyLines s₂).take 4 → 4 ≤ (pyLines s₁).length →
      4 ≤ (pyLines s₂).length →
      get_video_info request (.completed 0 s₁ e₁) =
        get_video_info request (.completed 0 s₂ e₂)) := by
  refine ⟨fun h => extract_audio_success_shape request s₁ e₁ h,
    fun h => get_video_info_success_shape request s₁ e₁ h, ?_, ?_⟩
  · intro ht h1 h2
    rw [extract_audio_success_shape request s₁ e₁ h1,
      extract_audio_success_shape request s₂ e₂ h2,
      getD_eq_of_take_eq "" ht (show 0 < 3 by omega),
      getD_eq_of_take_eq "" ht (show 1 < 3 by omega),
      getD_eq_of_take_eq "" ht (show 2 < 3 by omega)]
  · intro ht h1 h2
    rw [get_video_info_success_shape request s₁ e₁ h1,
      get_video_info_success_shape request s₂ e₂ h2,
      getD_eq_of_take_eq "" ht (show 0 < 4 by omega),
      getD_eq_of_take_eq "" ht (show 1 < 4 by omega),
      getD_eq_of_take_eq "" ht (show 2 < 4 by omega),
      getD_eq_of_take_eq "" ht (show 3 < 4 by omega)]

/-- C10 at concrete outputs: trailing extra lines and differing stderr do
not change either response, and fields are the stripped lines. -/
theorem stripped_lines_determine_response_witness :
    extract_audio sampleRequest (.completed 0 " u \n t \n213\nextra" "e1") =
      extract_audio sampleRequest (.completed 0 " u \n t \n213" "e2") ∧
    extract_audio sampleRequest (.completed 0 " u \n t \n213" "e2") =
      .ok { success := true, url := some "u", title := some "t",
            duration := some 213, error := none } ∧
    get_video_info sampleRequest (.completed 0 "T\n213\nUp\n1000\nextra" "e1") =
      get_video_info sampleRequest (.completed 0 "T\n213\nUp\n1000" "e2") ∧
    get_video_info sampleRequest (.completed 0 "T\n213\nUp\n1000" "e2") =
      .ok { success := true, title := "T", duration := "213",
            uploader := "Up", view_count := "1000" } := by
  have ha := stripped_lines_determine_response sampleRequest
    " u \n t \n213\nextra" " u \n t \n213" "e1" "e2"
  have hb := stripped_lines_determine_response sampleRequest
    " u \n t \n213" "x" "e2" "y"
  have hc := stripped_lines_determine_response sampleRequest
    "T\n213\nUp\n1000\nextra" "T\n213\nUp\n1000" "e1" "e2"
  have hd := stripped_lines_determine_response sampleRequest
    "T\n213\nUp\n1000" "x" "e2" "y"
  exact ⟨ha.2.2.1 (by decide) (by decide) (by decide),
    (hb.1 (by decide)).trans (by decide),
    hc.2.2.2 (by decide) (by decide) (by decide),
    (hd.2.1 (by decide)).trans (by decide)⟩
